import Mathlib

/-!
# Verification of the sessionmixer bidirectional synchronization engine

Shallow embedding of the core state-synchronization code of the
`sessionmixer` repository (the `MixerChannel` channel abstraction, the
`GangedFader` ganging logic, and the taper display conversions of
`createFaderParams`), with theorems settling the specification claims.

Modelling conventions:
* Go `int64` values are embedded as `Int` (the code performs no
  arithmetic that can overflow: it only stores, compares, and forwards
  values, so modular wrap-around never arises).
* A hardware control (`scarlettctl.Control`) is an opaque binding with a
  stable identity `numID` and an inclusive range; its `SetValue` may
  fail.  Write outcomes are supplied by an environment oracle
  `Env : Control → Int → Bool` (`true` = the write succeeds), and every
  attempted `SetValue` call is recorded in an explicit write trace so
  writes can be counted.
* `MixerChannel.HandleHWChange` contains no hardware I/O in the source
  (it only stores into the two atomic cache fields), so it is embedded
  as a pure state transformer producing no write trace and no error.
* Errors are embedded as an inductive `MixerError`: a failed
  `control.SetValue(v)` yields `ioError control.numID v` (identifying
  the failing binding, as the Go error chain does), and the `default`
  branch of the gang-mode switch yields `unknownGangMode`.
* Float display math (`createFaderParams`) is embedded over `ℝ`, with
  Go's `int(...)` conversion embedded as truncation toward zero.
-/

/-- A hardware control binding (`scarlettctl.Control`): stable identity
`NumID`, a display name, and an inclusive integer range. -/
structure Control where
  numID : Nat
  cname : String
  min : Int
  max : Int
deriving DecidableEq, Repr

/-- Write-outcome oracle for the hardware environment: `env c v = true`
means `c.SetValue(v)` succeeds, `false` means it returns an error. -/
def Env : Type := Control → Int → Bool

/-- Errors surfaced by the engine: a failed hardware write on a given
control with a given value, or the `default` branch of the gang-mode
switch (`fmt.Errorf("unknown gang mode: %s", ...)`). -/
inductive MixerError where
  | ioError (numID : Nat) (value : Int) : MixerError
  | unknownGangMode (mode : String) : MixerError
deriving DecidableEq, Repr

/-- `MixerChannel`: one hardware control plus the two cached values
(`lastUIValue`: last value set by the UI; `lastHWValue`: last value
observed from hardware). -/
structure MixerChannel where
  control : Control
  displayName : String
  unit : String
  lastUIValue : Int
  lastHWValue : Int
deriving DecidableEq, Repr

/-- `NewMixerChannel`: constructs a channel from a control and the
initial value read from hardware; both caches start at that value.
(The nil-control and failed-read error paths return before any channel
exists, so the constructed-channel postcondition is modelled on the
success path, with `initialValue` the value the hardware read
returned.) -/
def NewMixerChannel (control : Control) (displayName unit : String)
    (initialValue : Int) : MixerChannel :=
  { control := control
    displayName := displayName
    unit := unit
    lastUIValue := initialValue
    lastHWValue := initialValue }

/-- Result of a UI-originated channel operation: the updated channel,
the trace of attempted hardware writes (as `(numID, value)` pairs), and
the returned error, if any. -/
structure UIResult where
  channel : MixerChannel
  writes : List (Nat × Int)
  err : Option MixerError
deriving DecidableEq, Repr

/-- `MixerChannel.HandleUIChange`: equality check against `lastUIValue`
(no-op when equal), otherwise store the new value into the cache and
immediately issue one hardware write; on write failure the error is
returned but the cached value is not reverted. -/
def MixerChannel.HandleUIChange (env : Env) (ch : MixerChannel)
    (newValue : Int) : UIResult :=
  if ch.lastUIValue = newValue then
    { channel := ch, writes := [], err := none }
  else
    let ch' := { ch with lastUIValue := newValue }
    if env ch.control newValue then
      { channel := ch', writes := [(ch.control.numID, newValue)], err := none }
    else
      { channel := ch', writes := [(ch.control.numID, newValue)],
        err := some (.ioError ch.control.numID newValue) }

/-- `MixerChannel.HandleHWChange`: equality check against `lastHWValue`
(no-op when equal), otherwise update both caches to the new value.  The
source performs no hardware I/O here and returns nothing, so this is a
pure state transformer. -/
def MixerChannel.HandleHWChange (ch : MixerChannel) (newValue : Int) :
    MixerChannel :=
  if ch.lastHWValue = newValue then ch
  else { ch with lastHWValue := newValue, lastUIValue := newValue }

/-- `MixerChannel.GetCurrentValue`: returns the cached UI value. -/
def MixerChannel.GetCurrentValue (ch : MixerChannel) : Int :=
  ch.lastUIValue

/-- `GangedFader`: one logical fader controlling several channels.
`mode` is the `GangMode` string (`"mirror"`, `"relative"`, `"scaled"`,
or anything else, which the mode switch rejects).  `taperDb` (a Go
`float32` used only to select the taper) is embedded as `ℚ`. -/
structure GangedFader where
  gname : String
  unit : String
  mode : String
  channels : List MixerChannel
  lastValue : Int
  gmin : Int
  gmax : Int
  taperDb : ℚ
  levelControls : List Control
  levelMin : Int
  levelMax : Int
deriving DecidableEq, Repr

/-- `NewGangedFader`: fails on an empty channel list; otherwise derives
the range from the first channel's control, reads the initial value from
the first channel's UI cache (`GetCurrentValue`), and derives the level
range from the first level control when present. -/
def NewGangedFader (name unit mode : String) (channels : List MixerChannel)
    (levelControls : List Control) (taperDb : ℚ) : Option GangedFader :=
  match channels with
  | [] => none
  | c0 :: _ =>
    some
      { gname := name
        unit := unit
        mode := mode
        channels := channels
        lastValue := c0.GetCurrentValue
        gmin := c0.control.min
        gmax := c0.control.max
        taperDb := taperDb
        levelControls := levelControls
        levelMin := match levelControls with
          | [] => 0
          | l0 :: _ => l0.min
        levelMax := match levelControls with
          | [] => 0
          | l0 :: _ => l0.max }

/-- Result of broadcasting a value over a channel list: the updated
channels, the concatenated write trace, and the `lastErr` value. -/
structure MirrorResult where
  channels : List MixerChannel
  writes : List (Nat × Int)
  err : Option MixerError
deriving DecidableEq, Repr

/-- `GangedFader.handleMirrorMode`: writes the same value to all ganged
channels in order via each channel's `HandleUIChange`; a failure is
logged into `lastErr` (later failures overwrite earlier ones) and the
loop continues; the final `lastErr` is returned. -/
def handleMirrorMode (env : Env) (channels : List MixerChannel)
    (value : Int) : MirrorResult :=
  match channels with
  | [] => { channels := [], writes := [], err := none }
  | ch :: rest =>
    let r := ch.HandleUIChange env value
    let m := handleMirrorMode env rest value
    { channels := r.channel :: m.channels
      writes := r.writes ++ m.writes
      err := match m.err with
        | some e => some e
        | none => r.err }

/-- Result of a UI-originated gang operation. -/
structure GangResult where
  gang : GangedFader
  writes : List (Nat × Int)
  err : Option MixerError
deriving DecidableEq, Repr

/-- `GangedFader.HandleUIChange`: equality check against `lastValue`
(no-op when equal); otherwise the cached value is stored first, then the
mode switch dispatches: `"mirror"` broadcasts, `"relative"` and
`"scaled"` log a fallback and broadcast as mirror, and any other mode
string returns an `unknownGangMode` error without touching the
channels. -/
def GangedFader.HandleUIChange (env : Env) (gf : GangedFader)
    (newValue : Int) : GangResult :=
  if gf.lastValue = newValue then
    { gang := gf, writes := [], err := none }
  else
    let gf1 := { gf with lastValue := newValue }
    if gf1.mode = "mirror" ∨ gf1.mode = "relative" ∨ gf1.mode = "scaled" then
      let m := handleMirrorMode env gf1.channels newValue
      { gang := { gf1 with channels := m.channels }
        writes := m.writes
        err := m.err }
    else
      { gang := gf1, writes := [], err := some (.unknownGangMode gf1.mode) }

/-- Helper for `GangedFader.HandleHWChange`: scans the channel list for
the first channel whose control has the given `numID`, applies
`MixerChannel.HandleHWChange` to it, and stops (`break`); returns the
updated list and whether a match was found. -/
def hwChangeChannels (channels : List MixerChannel) (numID : Nat)
    (newValue : Int) : List MixerChannel × Bool :=
  match channels with
  | [] => ([], false)
  | ch :: rest =>
    if ch.control.numID = numID then
      (ch.HandleHWChange newValue :: rest, true)
    else
      let (rest', found) := hwChangeChannels rest numID newValue
      (ch :: rest', found)

/-- `GangedFader.HandleHWChange`: routes a hardware notification to the
member channel whose control matches `numID` (if any); on a match in
mirror mode, also stores `newValue` into the gang's `lastValue`.  The
source performs no hardware I/O here and returns nothing. -/
def GangedFader.HandleHWChange (gf : GangedFader) (numID : Nat)
    (newValue : Int) : GangedFader :=
  let (chs, found) := hwChangeChannels gf.channels numID newValue
  { gf with
    channels := chs
    lastValue := if found ∧ gf.mode = "mirror" then newValue else gf.lastValue }

/-- `GangedFader.GetCurrentValue`: returns the cached gang value. -/
def GangedFader.GetCurrentValue (gf : GangedFader) : Int :=
  gf.lastValue

/-- `n` repeated calls of `MixerChannel.HandleUIChange` with the same
value, threading the channel state and concatenating the write
traces. -/
def iterateUIChange (env : Env) (ch : MixerChannel) (v : Int) :
    Nat → MixerChannel × List (Nat × Int)
  | 0 => (ch, [])
  | n + 1 =>
    let r := MixerChannel.HandleUIChange env ch v
    let rest := iterateUIChange env r.channel v n
    (rest.1, r.writes ++ rest.2)

/-- The channel range invariant of the spec: both cached values lie
within the control's inclusive `[min, max]` range. -/
def MixerChannel.inRange (ch : MixerChannel) : Prop :=
  ch.control.min ≤ ch.lastUIValue ∧ ch.lastUIValue ≤ ch.control.max ∧
  ch.control.min ≤ ch.lastHWValue ∧ ch.lastHWValue ≤ ch.control.max

instance (ch : MixerChannel) : Decidable ch.inRange := by
  unfold MixerChannel.inRange
  infer_instance

/-- The UI cache of the first member channel (`channels[0]`), with a
default for the (never constructed) empty gang. -/
def firstChannelUIValue (gf : GangedFader) (d : Int) : Int :=
  match gf.channels with
  | [] => d
  | c :: _ => c.lastUIValue

/-- The gang cache-coherence invariant of the spec: the gang is
non-empty and its `lastValue` equals `channels[0]`'s UI cache. -/
def gangCoherent (gf : GangedFader) : Prop :=
  gf.channels ≠ [] ∧ gf.lastValue = firstChannelUIValue gf 0

instance (gf : GangedFader) : Decidable (gangCoherent gf) := by
  unfold gangCoherent
  infer_instance

/-- Apply a sequence of UI changes to a gang, threading the state. -/
def applyUIChanges (env : Env) (gf : GangedFader) : List Int → GangedFader
  | [] => gf
  | v :: vs => applyUIChanges env ((gf.HandleUIChange env v).gang) vs

/-- Concrete mirror-mode scenario falsifying the unrestricted coherence
invariant: a one-channel gang built by `NewGangedFader` at value 0, a UI
change to 5 (which leaves the channel's `lastHWValue` at 0), then a
hardware notification for the member control carrying 0: the channel's
own equality check makes its cache update a no-op, while the gang still
stores 0 into `lastValue`. -/
def coherenceCexGang : GangedFader :=
  ((((NewGangedFader "g" "raw" "mirror"
          [NewMixerChannel ⟨7, "c", 0, 100⟩ "a" "raw" 0] [] 0).getD
        ⟨"", "", "", [], 0, 0, 0, 0, [], 0, 0⟩).HandleUIChange
      (fun _ _ => true) 5).gang).HandleHWChange 7 0

/-- The per-channel write errors encountered during a mirror broadcast,
in channel order: a channel contributes an error exactly when its write
is attempted (its cached value differs) and the hardware write fails. -/
def mirrorErrors (env : Env) (channels : List MixerChannel) (value : Int) :
    List MixerError :=
  channels.filterMap fun ch =>
    if ch.lastUIValue ≠ value ∧ env ch.control value = false then
      some (.ioError ch.control.numID value)
    else none

/-- Truncation toward zero: the embedding of Go's `int(...)` conversion
from a float. -/
noncomputable def intTrunc (x : ℝ) : ℤ :=
  if 0 ≤ x then ⌊x⌋ else ⌈x⌉

/-- The `"raw"`/default display conversion of `createFaderParams`:
`value := int(normalized*(max-min) + min)`, embedded over `ℝ`. -/
noncomputable def rawFormatValue (min max : ℤ) (normalized : ℝ) : ℤ :=
  intTrunc (normalized * ((max : ℝ) - (min : ℝ)) + (min : ℝ))

/-- The `"db"` display conversion of `createFaderParams`, embedded over
`ℝ`: `rawValue := normalized*(max-min) + min`; when `rawValue <= min`
the silent sentinel `"-∞ dB"` is shown (embedded as `none`); otherwise
the displayed figure is `20*log10(rawValue/max) + 12` (embedded as
`some` of that real number). -/
noncomputable def dbFormatValue (min max : ℤ) (normalized : ℝ) : Option ℝ :=
  let rawValue : ℝ := normalized * ((max : ℝ) - (min : ℝ)) + (min : ℝ)
  if rawValue ≤ (min : ℝ) then none
  else some (20 * Real.logb 10 (rawValue / (max : ℝ)) + 12)


/-- A concrete three-channel mirror gang at value 0 (controls 1, 2, 3),
used to exercise the broadcast and partial-failure scenarios. -/
def gang3 : GangedFader :=
  (NewGangedFader "g3" "raw" "mirror"
      [NewMixerChannel ⟨1, "c1", 0, 100⟩ "a" "raw" 0,
        NewMixerChannel ⟨2, "c2", 0, 100⟩ "b" "raw" 0,
        NewMixerChannel ⟨3, "c3", 0, 100⟩ "c" "raw" 0] [] 0).getD
    ⟨"", "", "", [], 0, 0, 0, 0, [], 0, 0⟩

/-- Environment in which every write to control 2 fails and all other
writes succeed. -/
def envFail2 : Env := fun c _ => decide (c.numID ≠ 2)

/-- A concrete one-channel gang whose mode string matches no case of
the gang-mode switch. -/
def gangUnknownMode : GangedFader :=
  (NewGangedFader "g" "raw" "bogus"
      [NewMixerChannel ⟨4, "c4", 0, 100⟩ "d" "raw" 0] [] 0).getD
    ⟨"", "", "", [], 0, 0, 0, 0, [], 0, 0⟩

/-! ## Helper lemmas about `MixerChannel.HandleUIChange` -/

theorem HandleUIChange_lastUIValue (env : Env) (ch : MixerChannel) (v : Int) :
    (MixerChannel.HandleUIChange env ch v).channel.lastUIValue = v := by
  unfold MixerChannel.HandleUIChange
  split
  · assumption
  · split <;> rfl

theorem HandleUIChange_lastHWValue (env : Env) (ch : MixerChannel) (v : Int) :
    (MixerChannel.HandleUIChange env ch v).channel.lastHWValue =
      ch.lastHWValue := by
  unfold MixerChannel.HandleUIChange
  split
  · rfl
  · split <;> rfl

theorem HandleUIChange_control (env : Env) (ch : MixerChannel) (v : Int) :
    (MixerChannel.HandleUIChange env ch v).channel.control = ch.control := by
  unfold MixerChannel.HandleUIChange
  split
  · rfl
  · split <;> rfl

theorem HandleUIChange_noop (env : Env) (ch : MixerChannel) (v : Int)
    (h : ch.lastUIValue = v) :
    MixerChannel.HandleUIChange env ch v =
      { channel := ch, writes := [], err := none } := by
  unfold MixerChannel.HandleUIChange
  rw [if_pos h]

theorem HandleUIChange_writes (env : Env) (ch : MixerChannel) (v : Int) :
    (MixerChannel.HandleUIChange env ch v).writes =
      if ch.lastUIValue = v then [] else [(ch.control.numID, v)] := by
  unfold MixerChannel.HandleUIChange
  split
  · rfl
  · split <;> simp_all

theorem HandleUIChange_err (env : Env) (ch : MixerChannel) (v : Int) :
    (MixerChannel.HandleUIChange env ch v).err =
      if ch.lastUIValue = v then none
      else if env ch.control v then none
      else some (.ioError ch.control.numID v) := by
  unfold MixerChannel.HandleUIChange
  split
  · rfl
  · split <;> simp_all

/-! ## Channel-level claims -/

/-- C1: Feedback-loop property: for a channel whose `lastUIValue`
differs from `v`, `HandleUIChange v` issues exactly one hardware write,
and the immediately following hardware echo `HandleHWChange v` performs
no outbound write at all (in the source it only stores into the two
cache fields, and it is embedded accordingly as a pure state update with
no write trace), leaving the UI cache at `v`; so the pair of calls
performs exactly one write to the binding in total. -/
theorem feedback_loop_single_write (env : Env) (ch : MixerChannel) (v : Int)
    (h : ch.lastUIValue ≠ v) :
    (MixerChannel.HandleUIChange env ch v).writes.length = 1 ∧
    ((MixerChannel.HandleUIChange env ch v).channel.HandleHWChange
      v).lastUIValue = v := by
  constructor
  · rw [HandleUIChange_writes, if_neg h]
    rfl
  · have hui := HandleUIChange_lastUIValue env ch v
    unfold MixerChannel.HandleHWChange
    split
    · exact hui
    · rfl

theorem feedback_loop_single_write_witness :
    (MixerChannel.HandleUIChange (fun _ _ => true)
        (NewMixerChannel ⟨1, "c", 0, 100⟩ "a" "raw" 0) 5).writes.length = 1 ∧
    ((MixerChannel.HandleUIChange (fun _ _ => true)
        (NewMixerChannel ⟨1, "c", 0, 100⟩ "a" "raw" 0)
        5).channel.HandleHWChange 5).lastUIValue = 5 :=
  feedback_loop_single_write (fun _ _ => true)
    (NewMixerChannel ⟨1, "c", 0, 100⟩ "a" "raw" 0) 5 (by decide)

theorem iterateUIChange_noop (env : Env) (ch : MixerChannel) (v : Int)
    (h : ch.lastUIValue = v) :
    ∀ n : Nat, iterateUIChange env ch v n = (ch, []) := by
  intro n
  induction n with
  | zero => rfl
  | succ n ih =>
    unfold iterateUIChange
    rw [HandleUIChange_noop env ch v h]
    simpa using ih

/-- C6: Equality idempotence: starting from a channel whose cache
differs from `v`, `n + 1` repeated `HandleUIChange v` calls issue
exactly one hardware write in total; and any call on a channel whose
cache already equals `v` is a no-op returning the channel unchanged,
with no write and no error. -/
theorem equality_idempotence (env : Env) (ch : MixerChannel) (v : Int)
    (n : Nat) (h : ch.lastUIValue ≠ v) :
    (iterateUIChange env ch v (n + 1)).2.length = 1 ∧
    (∀ ch' : MixerChannel, ch'.lastUIValue = v →
      MixerChannel.HandleUIChange env ch' v =
        { channel := ch', writes := [], err := none }) := by
  constructor
  · simp only [iterateUIChange]
    rw [iterateUIChange_noop env _ v (HandleUIChange_lastUIValue env ch v) n]
    simp [HandleUIChange_writes, if_neg h]
  · intro ch' h'
    exact HandleUIChange_noop env ch' v h'

theorem equality_idempotence_witness :
    (iterateUIChange (fun _ _ => true)
        (NewMixerChannel ⟨1, "c", 0, 100⟩ "a" "raw" 0) 5 3).2.length = 1 :=
  (equality_idempotence (fun _ _ => true)
    (NewMixerChannel ⟨1, "c", 0, 100⟩ "a" "raw" 0) 5 2 (by decide)).1

/-- C7: `HandleHWChange` semantics: a no-op when `newValue` equals
`lastHWValue`; otherwise both caches are set to `newValue` (hardware
wins over any stale UI cache) and nothing else changes.  In the source
the function performs no hardware I/O and returns nothing, which the
embedding reflects by its type: a pure `MixerChannel → Int →
MixerChannel` state update with no write trace and no error. -/
theorem hw_change_semantics (ch : MixerChannel) (v : Int) :
    (ch.lastHWValue = v → ch.HandleHWChange v = ch) ∧
    (ch.lastHWValue ≠ v →
      (ch.HandleHWChange v).lastHWValue = v ∧
      (ch.HandleHWChange v).lastUIValue = v ∧
      (ch.HandleHWChange v).control = ch.control ∧
      (ch.HandleHWChange v).displayName = ch.displayName ∧
      (ch.HandleHWChange v).unit = ch.unit) := by
  unfold MixerChannel.HandleHWChange
  constructor
  · intro h
    rw [if_pos h]
  · intro h
    rw [if_neg h]
    exact ⟨rfl, rfl, rfl, rfl, rfl⟩

theorem hw_change_semantics_witness :
    ((NewMixerChannel ⟨1, "c", 0, 100⟩ "a" "raw" 0).HandleHWChange 0 =
      NewMixerChannel ⟨1, "c", 0, 100⟩ "a" "raw" 0) ∧
    ((NewMixerChannel ⟨2, "d", 0, 100⟩ "b" "raw" 0).HandleHWChange
      7).lastUIValue = 7 :=
  ⟨(hw_change_semantics (NewMixerChannel ⟨1, "c", 0, 100⟩ "a" "raw" 0) 0).1
      (by decide),
    ((hw_change_semantics (NewMixerChannel ⟨2, "d", 0, 100⟩ "b" "raw" 0) 7).2
      (by decide)).2.1⟩

/-- C2 counterexample: `HandleUIChange` performs no clamping, so an
out-of-range argument lands in the cache verbatim: on a channel with
range `[0, 10]` holding 5, `HandleUIChange 100` (with a succeeding
write) leaves `lastUIValue = 100`, outside the range. -/
theorem range_invariant_cex :
    ¬ (MixerChannel.HandleUIChange (fun _ _ => true)
        (NewMixerChannel ⟨1, "c", 0, 10⟩ "a" "raw" 5) 100).channel.inRange := by
  decide

/-- C2 amended: the range invariant holds at construction when the
initial hardware read is in range, and is preserved by `HandleUIChange`
and `HandleHWChange` for arguments within `[control.min, control.max]`
(the code performs no clamping, so arbitrary integer arguments are not
constrained — see the counterexample). -/
theorem range_invariant_amended (env : Env) (ctl : Control)
    (dn u : String) (iv : Int) (h1 : ctl.min ≤ iv) (h2 : iv ≤ ctl.max) :
    (NewMixerChannel ctl dn u iv).inRange ∧
    (∀ (ch : MixerChannel) (v : Int), ch.inRange →
      ch.control.min ≤ v → v ≤ ch.control.max →
      (MixerChannel.HandleUIChange env ch v).channel.inRange ∧
      (ch.HandleHWChange v).inRange) := by
  constructor
  · exact ⟨h1, h2, h1, h2⟩
  · intro ch v hch hv1 hv2
    obtain ⟨a1, a2, a3, a4⟩ := hch
    constructor
    · unfold MixerChannel.HandleUIChange
      split
      · exact ⟨a1, a2, a3, a4⟩
      · split
        · exact ⟨hv1, hv2, a3, a4⟩
        · exact ⟨hv1, hv2, a3, a4⟩
    · unfold MixerChannel.HandleHWChange
      split
      · exact ⟨a1, a2, a3, a4⟩
      · exact ⟨hv1, hv2, hv1, hv2⟩

theorem range_invariant_amended_witness :
    (NewMixerChannel ⟨1, "c", 0, 10⟩ "a" "raw" 5).inRange :=
  (range_invariant_amended (fun _ _ => true) ⟨1, "c", 0, 10⟩ "a" "raw" 5
    (by decide) (by decide)).1

/-! ## Helper lemmas about the gang operations -/

theorem handleMirrorMode_cons (env : Env) (ch : MixerChannel)
    (rest : List MixerChannel) (v : Int) :
    handleMirrorMode env (ch :: rest) v =
      { channels := (MixerChannel.HandleUIChange env ch v).channel ::
          (handleMirrorMode env rest v).channels
        writes := (MixerChannel.HandleUIChange env ch v).writes ++
          (handleMirrorMode env rest v).writes
        err := match (handleMirrorMode env rest v).err with
          | some e => some e
          | none => (MixerChannel.HandleUIChange env ch v).err } := rfl

theorem handleMirrorMode_channels (env : Env) (chs : List MixerChannel)
    (v : Int) :
    (handleMirrorMode env chs v).channels =
      chs.map fun ch => (MixerChannel.HandleUIChange env ch v).channel := by
  induction chs with
  | nil => rfl
  | cons ch rest ih =>
    rw [handleMirrorMode_cons]
    simp [ih]

theorem handleMirrorMode_writes (env : Env) (chs : List MixerChannel)
    (v : Int) :
    (handleMirrorMode env chs v).writes =
      chs.filterMap fun ch =>
        if ch.lastUIValue = v then none else some (ch.control.numID, v) := by
  induction chs with
  | nil => rfl
  | cons ch rest ih =>
    rw [handleMirrorMode_cons]
    by_cases hc : ch.lastUIValue = v
    · simp [List.filterMap_cons, HandleUIChange_writes, hc, ih]
    · simp [List.filterMap_cons, HandleUIChange_writes, hc, ih]

theorem getLast?_cons_isSome {α : Type} (a : α) (l : List α) :
    ∃ x, (a :: l).getLast? = some x := by
  induction l generalizing a with
  | nil => exact ⟨a, rfl⟩
  | cons b t ih =>
    rw [List.getLast?_cons_cons]
    exact ih b

theorem handleMirrorMode_err_cons (env : Env) (ch : MixerChannel)
    (rest : List MixerChannel) (v : Int) :
    (handleMirrorMode env (ch :: rest) v).err =
      match (handleMirrorMode env rest v).err with
      | some e => some e
      | none => (MixerChannel.HandleUIChange env ch v).err := rfl

theorem handleMirrorMode_err (env : Env) (chs : List MixerChannel) (v : Int) :
    (handleMirrorMode env chs v).err = (mirrorErrors env chs v).getLast? := by
  induction chs with
  | nil => rfl
  | cons ch rest ih =>
    rw [handleMirrorMode_err_cons]
    by_cases h1 : ch.lastUIValue = v
    · have he : (MixerChannel.HandleUIChange env ch v).err = none := by
        rw [HandleUIChange_err, if_pos h1]
      have hm : mirrorErrors env (ch :: rest) v = mirrorErrors env rest v := by
        simp [mirrorErrors, List.filterMap_cons, h1]
      rw [hm, ← ih, he]
      cases (handleMirrorMode env rest v).err <;> rfl
    · by_cases h2 : env ch.control v = true
      · have he : (MixerChannel.HandleUIChange env ch v).err = none := by
          rw [HandleUIChange_err, if_neg h1, if_pos h2]
        have hm : mirrorErrors env (ch :: rest) v = mirrorErrors env rest v := by
          simp [mirrorErrors, List.filterMap_cons, h1, h2]
        rw [hm, ← ih, he]
        cases (handleMirrorMode env rest v).err <;> rfl
      · have he : (MixerChannel.HandleUIChange env ch v).err =
            some (MixerError.ioError ch.control.numID v) := by
          rw [HandleUIChange_err, if_neg h1, if_neg h2]
        have hm : mirrorErrors env (ch :: rest) v =
            MixerError.ioError ch.control.numID v :: mirrorErrors env rest v := by
          simp [mirrorErrors, List.filterMap_cons, h1, h2]
        rw [hm]
        cases hrest : mirrorErrors env rest v with
        | nil =>
          rw [hrest] at ih
          have ih' : (handleMirrorMode env rest v).err = none := ih
          rw [ih', he]
          rfl
        | cons b t =>
          rw [hrest] at ih
          obtain ⟨x, hx⟩ := getLast?_cons_isSome b t
          rw [List.getLast?_cons_cons, hx, ih, hx]

theorem gang_HandleUIChange_mirror (env : Env) (gf : GangedFader) (v : Int)
    (hmode : gf.mode = "mirror") (hne : gf.lastValue ≠ v) :
    GangedFader.HandleUIChange env gf v =
      { gang :=
          { gf with
            lastValue := v
            channels := (handleMirrorMode env gf.channels v).channels }
        writes := (handleMirrorMode env gf.channels v).writes
        err := (handleMirrorMode env gf.channels v).err } := by
  simp only [GangedFader.HandleUIChange]
  rw [if_neg hne, if_pos (Or.inl hmode)]

theorem gang_HandleUIChange_mode (env : Env) (gf : GangedFader) (v : Int) :
    ((GangedFader.HandleUIChange env gf v).gang).mode = gf.mode := by
  simp only [GangedFader.HandleUIChange]
  split
  · rfl
  · split <;> rfl

theorem gang_HandleUIChange_noop (env : Env) (gf : GangedFader) (v : Int)
    (h : gf.lastValue = v) :
    GangedFader.HandleUIChange env gf v =
      { gang := gf, writes := [], err := none } := by
  simp only [GangedFader.HandleUIChange]
  rw [if_pos h]

theorem gang_coherence_step (env : Env) (gf : GangedFader) (v : Int)
    (hmode : gf.mode = "mirror") (hcoh : gangCoherent gf) :
    gangCoherent ((GangedFader.HandleUIChange env gf v).gang) := by
  obtain ⟨hne, heq⟩ := hcoh
  by_cases hv : gf.lastValue = v
  · rw [gang_HandleUIChange_noop env gf v hv]
    exact ⟨hne, heq⟩
  · rw [gang_HandleUIChange_mirror env gf v hmode hv]
    cases hch : gf.channels with
    | nil => exact absurd hch hne
    | cons c rest =>
      constructor
      · simp [handleMirrorMode_channels, hch]
      · simp only [firstChannelUIValue, handleMirrorMode_channels, hch,
          List.map]
        exact (HandleUIChange_lastUIValue env c v).symm

/-! ## Gang-level claims -/

/-- C3 counterexample: the unrestricted cache-coherence invariant fails.
On a one-channel mirror gang constructed at value 0, `HandleUIChange 5`
followed by the hardware notification `HandleHWChange(numID, 0)` for the
member control leaves the gang's `lastValue` at 0 while `channels[0]`'s
UI cache is 5: the channel's own equality check (its `lastHWValue` is
still 0) makes the cache update a no-op, but the gang stores the
reported value unconditionally on a match. -/
theorem gang_coherence_cex :
    coherenceCexGang.lastValue ≠ firstChannelUIValue coherenceCexGang 0 := by
  decide

/-- C3 amended: the coherence invariant (the gang is non-empty and
`lastValue` equals `channels[0]`'s cached UI value) holds immediately
after construction by `NewGangedFader` in mirror mode and is preserved
by every mirror-mode `HandleUIChange`, hence holds after every sequence
of UI-originated mirror operations from construction; it is not in
general preserved by `HandleHWChange` (see the counterexample). -/
theorem gang_coherence_amended (env : Env) (name unit : String)
    (channels : List MixerChannel) (lcs : List Control) (t : ℚ)
    (gf0 : GangedFader) (vs : List Int)
    (hcons : NewGangedFader name unit "mirror" channels lcs t = some gf0) :
    gangCoherent gf0 ∧ gangCoherent (applyUIChanges env gf0 vs) := by
  have hbase : gangCoherent gf0 ∧ gf0.mode = "mirror" := by
    cases channels with
    | nil => simp [NewGangedFader] at hcons
    | cons c0 rest =>
      simp only [NewGangedFader, Option.some.injEq] at hcons
      constructor
      · constructor
        · rw [← hcons]
          simp
        · rw [← hcons]
          rfl
      · rw [← hcons]
  have hstep : ∀ (ws : List Int) (gf : GangedFader), gf.mode = "mirror" →
      gangCoherent gf → gangCoherent (applyUIChanges env gf ws) := by
    intro ws
    induction ws with
    | nil =>
      intro gf _ hc
      exact hc
    | cons w ws ih =>
      intro gf hm hc
      exact ih ((GangedFader.HandleUIChange env gf w).gang)
        (by rw [gang_HandleUIChange_mode]; exact hm)
        (gang_coherence_step env gf w hm hc)
  exact ⟨hbase.1, hstep vs gf0 hbase.2 hbase.1⟩

theorem gang_coherence_amended_witness :
    gangCoherent gang3 ∧
    gangCoherent (applyUIChanges (fun _ _ => true) gang3 [5, 7]) :=
  gang_coherence_amended (fun _ _ => true) "g3" "raw"
    [NewMixerChannel ⟨1, "c1", 0, 100⟩ "a" "raw" 0,
      NewMixerChannel ⟨2, "c2", 0, 100⟩ "b" "raw" 0,
      NewMixerChannel ⟨3, "c3", 0, 100⟩ "c" "raw" 0] [] 0 gang3 [5, 7]
    (by decide)

/-- C4: Mirror broadcast: for a mirror-mode gang whose `lastValue`
differs from `v`, `HandleUIChange v` stores `v` into the gang's
`lastValue` and into every member channel's UI cache (whether or not the
per-channel hardware write succeeds), and the write trace walks the
channels in order, skipping exactly the channels already cached at
`v`. -/
theorem mirror_broadcast (env : Env) (gf : GangedFader) (v : Int)
    (hmode : gf.mode = "mirror") (hne : gf.lastValue ≠ v) :
    ((GangedFader.HandleUIChange env gf v).gang).lastValue = v ∧
    (∀ ch ∈ ((GangedFader.HandleUIChange env gf v).gang).channels,
      ch.lastUIValue = v) ∧
    (GangedFader.HandleUIChange env gf v).writes =
      gf.channels.filterMap fun ch =>
        if ch.lastUIValue = v then none else some (ch.control.numID, v) := by
  rw [gang_HandleUIChange_mirror env gf v hmode hne]
  refine ⟨rfl, ?_, handleMirrorMode_writes env gf.channels v⟩
  intro ch hch
  simp only [handleMirrorMode_channels, List.mem_map] at hch
  obtain ⟨ch0, _, hc⟩ := hch
  rw [← hc]
  exact HandleUIChange_lastUIValue env ch0 v

theorem mirror_broadcast_witness :
    ((GangedFader.HandleUIChange envFail2 gang3 5).gang).lastValue = 5 ∧
    (∀ ch ∈ ((GangedFader.HandleUIChange envFail2 gang3 5).gang).channels,
      ch.lastUIValue = 5) ∧
    (GangedFader.HandleUIChange envFail2 gang3 5).writes =
      gang3.channels.filterMap fun ch =>
        if ch.lastUIValue = 5 then none else some (ch.control.numID, 5) :=
  mirror_broadcast envFail2 gang3 5 rfl (by decide)

/-- C5: Partial-failure policy: in mirror mode with a changed value, the
broadcast is never aborted — the write trace covers every member channel
whose cache differs from `v`, in order, regardless of which writes fail
— and the returned error is the last error encountered along the
channel sequence (`none` when no write fails). -/
theorem partial_failure (env : Env) (gf : GangedFader) (v : Int)
    (hmode : gf.mode = "mirror") (hne : gf.lastValue ≠ v) :
    (GangedFader.HandleUIChange env gf v).writes =
      (gf.channels.filterMap fun ch =>
        if ch.lastUIValue = v then none else some (ch.control.numID, v)) ∧
    (GangedFader.HandleUIChange env gf v).err =
      (mirrorErrors env gf.channels v).getLast? := by
  rw [gang_HandleUIChange_mirror env gf v hmode hne]
  exact ⟨handleMirrorMode_writes env gf.channels v,
    handleMirrorMode_err env gf.channels v⟩

theorem partial_failure_witness :
    ((GangedFader.HandleUIChange envFail2 gang3 5).writes =
      (gang3.channels.filterMap fun ch =>
        if ch.lastUIValue = 5 then none else some (ch.control.numID, 5)) ∧
    (GangedFader.HandleUIChange envFail2 gang3 5).err =
      (mirrorErrors envFail2 gang3.channels 5).getLast?) ∧
    (GangedFader.HandleUIChange envFail2 gang3 5).writes =
      [(1, 5), (2, 5), (3, 5)] ∧
    (GangedFader.HandleUIChange envFail2 gang3 5).err =
      some (MixerError.ioError 2 5) :=
  ⟨partial_failure envFail2 gang3 5 rfl (by decide), by decide, by decide⟩

theorem hwChangeChannels_no_match (chs : List MixerChannel) (numID : Nat)
    (v : Int) (h : ∀ ch ∈ chs, ch.control.numID ≠ numID) :
    hwChangeChannels chs numID v = (chs, false) := by
  induction chs with
  | nil => rfl
  | cons ch rest ih =>
    have hch : ch.control.numID ≠ numID := h ch (List.mem_cons_self ch rest)
    simp only [hwChangeChannels, if_neg hch,
      ih fun c hc => h c (List.mem_cons_of_mem ch hc)]

/-- C8: Unknown-parameter no-op: a hardware notification whose `numID`
matches no member channel's control leaves the gang completely
unchanged — same `lastValue`, same channels (hence same `lastUIValue`
and `lastHWValue` everywhere).  The source returns nothing here, so no
error can be signalled, which the embedding reflects by the operation's
pure type. -/
theorem unknown_parameter_noop (gf : GangedFader) (numID : Nat) (v : Int)
    (h : ∀ ch ∈ gf.channels, ch.control.numID ≠ numID) :
    gf.HandleHWChange numID v = gf := by
  unfold GangedFader.HandleHWChange
  rw [hwChangeChannels_no_match gf.channels numID v h]
  simp

theorem unknown_parameter_noop_witness :
    gang3.HandleHWChange 99 5 = gang3 :=
  unknown_parameter_noop gang3 99 5 (by decide)

/-- C10: no rollback on gang error: whenever the new value differs from
the gang's cached `lastValue`, `HandleUIChange` leaves `lastValue` equal
to the new value, in every branch of the mode switch — including the
unknown-mode branch, which returns an error after the cache store, and
the mirror branch even when member writes fail — because the store to
`lastValue` happens before the mode dispatch and is never reverted. -/
theorem no_rollback (env : Env) (gf : GangedFader) (v : Int)
    (h : gf.lastValue ≠ v) :
    ((GangedFader.HandleUIChange env gf v).gang).lastValue = v := by
  simp only [GangedFader.HandleUIChange]
  rw [if_neg h]
  split
  · rfl
  · rfl

theorem no_rollback_witness :
    ((GangedFader.HandleUIChange (fun _ _ => true) gangUnknownMode 5).gang).lastValue = 5 :=
  no_rollback (fun _ _ => true) gangUnknownMode 5 (by decide)

/-! ## Taper claims -/

/-- C9: Taper boundary and monotonicity for the display conversions of
`createFaderParams` (embedded over `ℝ`): the decibel display is
monotonic in the raw value; a raw value at or below `min` yields the
silent `-∞ dB` sentinel; `raw = max` (normalized position 1) yields
exactly `+12` dB, the fixed headroom constant; and the linear (raw)
display yields `min` at position 0 and `max` at position 1, and is also
monotonic. -/
theorem taper_boundary_monotone (min max : ℤ) (hmin : 0 ≤ min)
    (hlt : min < max) :
    (∀ p1 p2 d1 d2 : ℝ, p1 ≤ p2 →
      dbFormatValue min max p1 = some d1 →
      dbFormatValue min max p2 = some d2 → d1 ≤ d2) ∧
    (∀ p : ℝ, p * ((max : ℝ) - (min : ℝ)) + (min : ℝ) ≤ (min : ℝ) →
      dbFormatValue min max p = none) ∧
    dbFormatValue min max 1 = some 12 ∧
    rawFormatValue min max 0 = min ∧
    rawFormatValue min max 1 = max ∧
    (∀ p1 p2 : ℝ, 0 ≤ p1 → p1 ≤ p2 →
      rawFormatValue min max p1 ≤ rawFormatValue min max p2) := by
  have hmz : (0 : ℤ) < max := lt_of_le_of_lt hmin hlt
  have hmaxR : (0 : ℝ) < (max : ℝ) := by exact_mod_cast hmz
  have hminR : (0 : ℝ) ≤ (min : ℝ) := by exact_mod_cast hmin
  have hltR : (min : ℝ) < (max : ℝ) := by exact_mod_cast hlt
  have hdiffR : (0 : ℝ) < (max : ℝ) - (min : ℝ) := sub_pos.mpr hltR
  refine ⟨?_, ?_, ?_, ?_, ?_, ?_⟩
  · intro p1 p2 d1 d2 hp h1 h2
    simp only [dbFormatValue] at h1 h2
    split at h1
    · exact absurd h1 (by simp)
    · split at h2
      · exact absurd h2 (by simp)
      · rename_i hr1 hr2
        rw [Option.some.injEq] at h1 h2
        rw [← h1, ← h2]
        have hr1pos : (0 : ℝ) < p1 * ((max : ℝ) - (min : ℝ)) + (min : ℝ) := by
          have := not_le.mp hr1
          linarith
        have hr12 : p1 * ((max : ℝ) - (min : ℝ)) + (min : ℝ) ≤
            p2 * ((max : ℝ) - (min : ℝ)) + (min : ℝ) := by
          nlinarith
        have hdiv : (p1 * ((max : ℝ) - (min : ℝ)) + (min : ℝ)) / (max : ℝ) ≤
            (p2 * ((max : ℝ) - (min : ℝ)) + (min : ℝ)) / (max : ℝ) :=
          div_le_div_of_nonneg_right hr12 hmaxR.le
        have hlog := Real.logb_le_logb_of_le (b := 10) (by norm_num)
          (div_pos hr1pos hmaxR) hdiv
        linarith
  · intro p hple
    simp only [dbFormatValue]
    rw [if_pos hple]
  · simp only [dbFormatValue]
    have he : (1 : ℝ) * ((max : ℝ) - (min : ℝ)) + (min : ℝ) = (max : ℝ) := by
      ring
    rw [he, if_neg (not_le.mpr hltR), div_self (ne_of_gt hmaxR),
      Real.logb_one]
    norm_num
  · simp only [rawFormatValue, intTrunc]
    have he : (0 : ℝ) * ((max : ℝ) - (min : ℝ)) + (min : ℝ) =
        ((min : ℤ) : ℝ) := by ring
    rw [he]
    split
    · simp
    · simp
  · simp only [rawFormatValue, intTrunc]
    have he : (1 : ℝ) * ((max : ℝ) - (min : ℝ)) + (min : ℝ) =
        ((max : ℤ) : ℝ) := by ring
    rw [he]
    split
    · simp
    · simp
  · intro p1 p2 h0 hp
    have hnn1 : (0 : ℝ) ≤ p1 * ((max : ℝ) - (min : ℝ)) + (min : ℝ) := by
      nlinarith
    have hnn2 : (0 : ℝ) ≤ p2 * ((max : ℝ) - (min : ℝ)) + (min : ℝ) := by
      nlinarith
    have hr12 : p1 * ((max : ℝ) - (min : ℝ)) + (min : ℝ) ≤
        p2 * ((max : ℝ) - (min : ℝ)) + (min : ℝ) := by
      nlinarith
    simp only [rawFormatValue, intTrunc]
    rw [if_pos hnn1, if_pos hnn2]
    exact Int.floor_le_floor hr12

theorem taper_boundary_monotone_witness :
    dbFormatValue 0 4 1 = some 12 ∧ rawFormatValue 0 4 0 = 0 ∧
      rawFormatValue 0 4 1 = 4 :=
  ⟨(taper_boundary_monotone 0 4 (by norm_num) (by norm_num)).2.2.1,
    (taper_boundary_monotone 0 4 (by norm_num) (by norm_num)).2.2.2.1,
    (taper_boundary_monotone 0 4 (by norm_num) (by norm_num)).2.2.2.2.1⟩
